import Mathlib

/-!
Shallow embedding of the account-security core of the workout-tracker backend:
the login/lockout state machine (`models/User` instance methods and the
`login` controller), the OTP password-recovery flow (`forgotPassword`,
`verifyOTP`, `resetPassword` controllers), and the JWT middleware
(`protect`, `refreshIfNeeded`).

Modelling conventions:
- Timestamps are `Nat` milliseconds (`Date.now()`), except where the source
  works in whole seconds (JWT `iat`/`exp`, and the `protect` middleware);
  those are `Nat` seconds and the conversion `÷ 1000` mirrors the source's
  `parseInt(getTime() / 1000)` truncation.
- `bcrypt.compare` is an oracle parameter `cmp : String → String → Bool`
  so that theorems can quantify over the comparison outcome and express
  that a code path never consults it.
- `crypto.createHash('sha256')` and the bcrypt save-hook hash are
  uninterpreted function parameters.
- The database record for the queried email/identifier is passed in as an
  `Option Account`; a returned `Option Account` is the record after the
  handler's writes (`updateOne` / `save`).
-/

namespace WorkoutTracker

/-- Account record, after `models/User` (src/unnamed/part_001): the fields the
security core reads and writes. `pwHash` is the stored bcrypt digest. -/
structure Account where
  id : Nat
  pwHash : String
  isActive : Bool
  loginAttempts : Nat
  lockUntil : Option Nat
  passwordChangedAt : Option Nat
  resetPasswordToken : Option String
  resetPasswordExpire : Option Nat
  lastLogin : Option Nat
deriving DecidableEq

/-- Signed bearer token claim set, after `generateToken`: `{id, iat}` plus the
`exp` computed by `jsonwebtoken` from `expiresIn`. `iat`/`exp` are in seconds. -/
structure Token where
  sub : Nat
  iat : Nat
  exp : Nat
deriving DecidableEq

/-- JSON body (plus HTTP status) of the controller responses; only the fields
the auth handlers actually emit. Absent JSON fields are `none`. -/
structure Resp where
  status : Nat
  success : Bool
  message : String
  code : Option String := none
  lockUntil : Option Nat := none
  remainingSeconds : Option Nat := none
  remainingMinutes : Option Nat := none
  attemptsLeft : Option Nat := none
  token : Option Token := none
deriving DecidableEq

/-- Math.ceil (a / b) on naturals (used for remaining lock time). -/
def ceilDiv (a b : Nat) : Nat := (a + b - 1) / b

/-- The `isLocked` virtual: `!!(this.lockUntil && this.lockUntil > Date.now())`. -/
def isLocked (u : Account) (now : Nat) : Bool :=
  match u.lockUntil with
  | some l => decide (now < l)
  | none => false

/-- Lock duration: 10 minutes in ms (`lockTime` in `incLoginAttempts`). -/
def lockTime : Nat := 600000

/-- Threshold of failed attempts (`maxAttempts`). -/
def maxAttempts : Nat := 5

/-- The increment branch of `incLoginAttempts`: `$inc loginAttempts`, and
`$set lockUntil = now + lockTime` when the incremented counter reaches the
threshold while not currently locked. -/
def incStep (u : Account) (now : Nat) : Account :=
  if maxAttempts ≤ u.loginAttempts + 1 ∧ isLocked u now = false then
    { u with loginAttempts := u.loginAttempts + 1, lockUntil := some (now + lockTime) }
  else
    { u with loginAttempts := u.loginAttempts + 1 }

/-- `userSchema.methods.incLoginAttempts`: if a lock has expired
(`lockUntil < Date.now()`), restart the counter at 1 and unset the lock;
otherwise increment (and possibly lock). -/
def incLoginAttempts (u : Account) (now : Nat) : Account :=
  match u.lockUntil with
  | some l =>
    if l < now then { u with loginAttempts := 1, lockUntil := none }
    else incStep u now
  | none => incStep u now

/-- `userSchema.methods.resetLoginAttempts`: `$set loginAttempts: 0`,
`$unset lockUntil`. -/
def resetLoginAttempts (u : Account) : Account :=
  { u with loginAttempts := 0, lockUntil := none }

/-- `generateToken(userId)`: payload `{id, iat: floor(now/1000)}` signed with
`expiresIn` 7 days (`JWT_EXPIRE` default '7d' = 604800 s). -/
def generateToken (uid now : Nat) : Token :=
  ⟨uid, now / 1000, now / 1000 + 604800⟩

/-- Pluralization used by the login messages: `${m > 1 ? 's' : ''}`. -/
def minuteSuffix (m : Nat) : String := if 1 < m then "s" else ""

/-- Login response when the user lookup finds no record (HTTP 401). -/
def invalidCredResp : Resp :=
  { status := 401, success := false, message := "invalid credentials" }

/-- Login response for a deactivated account (HTTP 401). -/
def deactivatedResp : Resp :=
  { status := 401, success := false
    message := "Account is deactivated. Please contact support."
    code := some "ACCOUNT_DEACTIVATED" }

/-- HTTP 423 response when the account is already locked (`login` lines
163-176): remaining time is `ceil((lockUntil - now)/1000)` seconds. -/
def lockedResp (l now : Nat) : Resp :=
  let rs := ceilDiv (l - now) 1000
  let rm := ceilDiv rs 60
  { status := 423, success := false
    message := "Account is locked. Please try again in " ++ toString rm
      ++ " minute" ++ minuteSuffix rm ++ "."
    code := some "ACCOUNT_LOCKED"
    lockUntil := some l
    remainingSeconds := some rs
    remainingMinutes := some rm }

/-- HTTP 423 response when this failed attempt has just locked the account
(`login` lines 197-209). -/
def justLockedResp (l now : Nat) : Resp :=
  let rs := ceilDiv (l - now) 1000
  let rm := ceilDiv rs 60
  { status := 423, success := false
    message := "Too many failed attempts. Account locked for " ++ toString rm
      ++ " minute" ++ minuteSuffix rm ++ "."
    code := some "ACCOUNT_LOCKED"
    lockUntil := some l
    remainingSeconds := some rs
    remainingMinutes := some rm }

/-- HTTP 401 response after a failed password check that did not lock
(`login` lines 211-221): `attemptsLeft = 5 - loginAttempts`, clamped at 0
(JS reports 0 when the difference is not positive). -/
def failResp (attempts : Nat) : Resp :=
  let left := maxAttempts - attempts
  if 0 < left then
    { status := 401, success := false
      message := "Invalid credentials. " ++ toString left ++ " attempt"
        ++ (if 1 < left then "s" else "") ++ " remaining."
      attemptsLeft := some left }
  else
    { status := 401, success := false, message := "Invalid credentials"
      attemptsLeft := some 0 }

/-- Successful login response with the freshly issued token. -/
def successResp (u : Account) (now : Nat) : Resp :=
  { status := 200, success := true, message := "Login successful"
    token := some (generateToken u.id now) }

/-- Body of the `login` controller after the lock check: active-flag check,
password comparison, attempt bookkeeping, token issuance. -/
def loginBody (cmp : String → String → Bool) (u : Account) (pw : String)
    (now : Nat) : Resp × Option Account :=
  if u.isActive = false then (deactivatedResp, some u)
  else if cmp pw u.pwHash = false then
    let u2 := incLoginAttempts u now
    match u2.lockUntil with
    | some l =>
      if now < l then (justLockedResp l now, some u2) else (failResp u2.loginAttempts, some u2)
    | none => (failResp u2.loginAttempts, some u2)
  else
    let u1 := if 0 < u.loginAttempts ∨ u.lockUntil ≠ none then resetLoginAttempts u else u
    let u2 := { u1 with lastLogin := some now }
    (successResp u2 now, some u2)

/-- The `login` controller (authController.js lines 133-252): user lookup
result in, response and stored record out. The lock check
(`user.lockUntil && user.lockUntil > Date.now()`) runs before everything
else, in particular before `comparePassword`. -/
def login (cmp : String → String → Bool) (user : Option Account) (pw : String)
    (now : Nat) : Resp × Option Account :=
  match user with
  | none => (invalidCredResp, none)
  | some u =>
    match u.lockUntil with
    | some l =>
      if now < l then (lockedResp l now, some u)
      else loginBody cmp u pw now
    | none => loginBody cmp u pw now

example :
    (login (fun _ _ => false) (some ⟨1, "h", true, 0, none, none, none, none, none⟩)
      "x" 10).2 = some ⟨1, "h", true, 1, none, none, none, none, none⟩ := by decide

example :
    (login (fun _ _ => false) (some ⟨1, "h", true, 4, none, none, none, none, none⟩)
      "x" 10).2 = some ⟨1, "h", true, 5, some 600010, none, none, none, none⟩ := by decide

example :
    (login (fun _ _ => true) (some ⟨1, "h", true, 5, some 600010, none, none, none, none⟩)
      "x" 20).1.code = some "ACCOUNT_LOCKED" := by decide

/-- Anti-enumeration response of `forgotPassword` for a missing or inactive
account (HTTP 200). -/
def genericOtpResp : Resp :=
  { status := 200, success := true
    message := "If an account with that email exists, an OTP has been sent." }

/-- Response of `forgotPassword` when the OTP email was delivered (HTTP 200). -/
def otpSentResp : Resp :=
  { status := 200, success := true, message := "OTP sent to your email successfully" }

/-- Response of `forgotPassword` when delivery failed (HTTP 500). -/
def emailFailResp : Resp :=
  { status := 500, success := false
    message := "Email could not be sent. Please try again later." }

/-- The `forgotPassword` controller (authController.js lines 259-453).
`sha256` is the OTP digest function, `otp` the generated 6-digit code, and
`deliverOk` the outcome of `sendEmail`. An existing active account gets
`resetPasswordToken`/`resetPasswordExpire` stored (expiry now + 10 min);
on delivery failure both fields are cleared again and HTTP 500 returned. -/
def forgotPassword (sha256 : String → String) (user : Option Account)
    (otp : String) (deliverOk : Bool) (now : Nat) : Resp × Option Account :=
  match user with
  | none => (genericOtpResp, none)
  | some u =>
    if u.isActive = false then (genericOtpResp, some u)
    else
      let u1 := { u with resetPasswordToken := some (sha256 otp)
                         resetPasswordExpire := some (now + 600000) }
      if deliverOk then (otpSentResp, some u1)
      else (emailFailResp,
            some { u1 with resetPasswordToken := none, resetPasswordExpire := none })

/-- Rejection response of `verifyOTP` (HTTP 400). -/
def invalidOtpResp : Resp :=
  { status := 400, success := false, message := "Invalid or expired OTP"
    code := some "INVALID_OTP" }

/-- The `resetPasswordExpire: { $gt: Date.now() }` clause of the `verifyOTP`
query: holds only when an expiry is stored and lies strictly in the future. -/
def expireFuture (e : Option Nat) (now : Nat) : Bool :=
  match e with
  | some t => decide (now < t)
  | none => false

/-- The `verifyOTP` controller (authController.js lines 461-506): the
`findOne` query succeeds only when the stored `resetPasswordToken` equals the
sha256 digest of the candidate and `resetPasswordExpire > Date.now()`; it
does not clear the stored code on success. -/
def verifyOTP (sha256 : String → String) (user : Option Account) (otp : String)
    (now : Nat) : Resp :=
  match user with
  | none => invalidOtpResp
  | some u =>
    if u.resetPasswordToken = some (sha256 otp) ∧
        expireFuture u.resetPasswordExpire now = true then
      { status := 200, success := true, message := "OTP verified successfully" }
    else invalidOtpResp

/-- The `resetPassword` controller (authController.js lines 513-562). The
request body carries an `otp` field (required by `resetPasswordValidation` in
routes/auth.js), but the controller destructures only `{email, newPassword}`,
never calls `validationResult`, and never reads or compares the code: the
`otp` argument is dead. On success the bcrypt save-hook rehashes the password
and sets `passwordChangedAt = Date.now() - 1000` (the hook subtracts 1 s);
the stored reset-code hash and expiry are cleared. -/
def resetPassword (bhash : String → String) (email otp newPassword : String)
    (user : Option Account) (now : Nat) : Resp × Option Account :=
  if email = "" ∨ newPassword = "" then
    ({ status := 400, success := false
       message := "Please provide email and new password" }, user)
  else if newPassword.length < 6 then
    ({ status := 400, success := false
       message := "Password must be at least 6 characters" }, user)
  else
    match user with
    | none => ({ status := 404, success := false, message := "User not found" }, none)
    | some u =>
      ({ status := 200, success := true
         message := "Password reset successfully. You can now login with your new password." },
       some { u with pwHash := bhash newPassword
                     resetPasswordToken := none
                     resetPasswordExpire := none
                     passwordChangedAt := some (now - 1000) })

/-- Outcome of the `protect` middleware: the authenticated account, or an
HTTP error with message and machine code. -/
inductive AuthOutcome where
  | ok (u : Account)
  | err (status : Nat) (message : String) (code : String)
deriving DecidableEq

/-- The `protect` middleware (middleware/auth.js, in src/debugLogin.js lines
186-305): `jwt.verify` checks the signature (`sigOk`) and expiry in whole
seconds (`jsonwebtoken` treats `nowSec ≥ exp` as expired), then the subject
is looked up and must exist and be active, then the token is rejected when
`decoded.iat < parseInt(passwordChangedAt.getTime() / 1000)`. -/
def protect (db : Nat → Option Account) (sigOk : Bool) (tok : Token)
    (nowSec : Nat) : AuthOutcome :=
  if sigOk = false then
    .err 401 "Invalid token. Authentication failed." "INVALID_TOKEN"
  else if tok.exp ≤ nowSec then
    .err 401 "session has expired. Please login again." "TOKEN_EXPIRED"
  else
    match db tok.sub with
    | none => .err 401 "User no longer exists. Please login again." "USER_NOT_FOUND"
    | some u =>
      if u.isActive = false then
        .err 401 "Account is deactivated. Please contact support." "ACCOUNT_DEACTIVATED"
      else
        match u.passwordChangedAt with
        | some pca =>
          if tok.iat < pca / 1000 then
            .err 401 "Password was recently changed. Please login again." "PASSWORD_CHANGED"
          else .ok u
        | none => .ok u

/-- The `refreshIfNeeded` middleware (middleware/auth.js lines 371-414):
re-verifies `req.token` (a failed verification is caught and skips the
refresh), and when `0 < exp - now < 172800` (2 days, in seconds) and
`req.user` is set, mints a fresh 7-day token `{id: req.user._id, iat: now}`
and exposes it in the `X-New-Token` response header (the returned option).
It writes nothing: no account field and no token state is touched. -/
def refreshIfNeeded (sigOk : Bool) (tok : Option Token) (user : Option Account)
    (nowSec : Nat) : Option Token :=
  match tok with
  | none => none
  | some t =>
    if sigOk = false then none
    else if t.exp ≤ nowSec then none
    else
      match user with
      | some u =>
        if t.exp - nowSec < 172800 ∧ 0 < t.exp - nowSec then
          some ⟨u.id, nowSec, nowSec + 604800⟩
        else none
      | none => none

example :
    (forgotPassword (fun s => s) (some ⟨1, "h", true, 0, none, none, none, none, none⟩)
      "123456" false 5).2 =
    some ⟨1, "h", true, 0, none, none, none, none, none⟩ := by decide

example :
    (resetPassword (fun s => s) "e@x.com" "000000" "newpass1"
      (some ⟨1, "h", true, 0, none, none, some "stored", some 99, none⟩) 5000).2 =
    some ⟨1, "newpass1", true, 0, none, some 4000, none, none, none⟩ := by decide

example :
    protect (fun _ => some ⟨1, "h", true, 0, none, some 9000, none, none, none⟩)
      true ⟨1, 8, 700000⟩ 100 =
    .err 401 "Password was recently changed. Please login again." "PASSWORD_CHANGED" := by
  decide

/-- Iterated failed login attempts: runs `login` with the always-false
comparison oracle (wrong password) once per timestamp in the list, threading
the stored account record. -/
def failTimes : List Nat → Option Account → String → Option Account
  | [], s, _ => s
  | t :: ts, s, pw => failTimes ts (login (fun _ _ => false) s pw t).2 pw

/-- C3: starting from a fresh active account, five consecutive failed login
attempts (wrong password, modelled by the always-false comparison oracle)
leave the account with `loginAttempts = 5` and `lockUntil = t5 + 10 min`; the
sixth attempt inside the lock window is answered with the HTTP 423
`ACCOUNT_LOCKED` response carrying a positive `remainingSeconds`, for every
comparison oracle `cmp` — in particular for one that would accept the
password — because `login` checks the lock strictly before
`comparePassword`, so the stored hash is never consulted on that attempt. -/
theorem sixth_attempt_locked_without_password_check
    (i : Nat) (ph : String) (pca : Option Nat) (rt : Option String)
    (re ll : Option Nat) (pw1 pw6 : String) (t1 t2 t3 t4 t5 t6 : Nat)
    (h6 : t6 < t5 + 600000) (cmp : String → String → Bool) :
    failTimes [t1, t2, t3, t4, t5] (some ⟨i, ph, true, 0, none, pca, rt, re, ll⟩) pw1 =
      some ⟨i, ph, true, 5, some (t5 + 600000), pca, rt, re, ll⟩ ∧
    login cmp (some ⟨i, ph, true, 5, some (t5 + 600000), pca, rt, re, ll⟩) pw6 t6 =
      (lockedResp (t5 + 600000) t6,
       some ⟨i, ph, true, 5, some (t5 + 600000), pca, rt, re, ll⟩) ∧
    0 < ceilDiv (t5 + 600000 - t6) 1000 := by
  have h5 : t5 < t5 + 600000 := by omega
  refine ⟨?_, ?_, ?_⟩
  · rw [show failTimes [t1, t2, t3, t4, t5]
        (some ⟨i, ph, true, 0, none, pca, rt, re, ll⟩) pw1 =
      (login (fun _ _ => false) (some ⟨i, ph, true, 4, none, pca, rt, re, ll⟩) pw1 t5).2
      from rfl]
    simp [login, loginBody, incLoginAttempts, incStep, isLocked, maxAttempts, lockTime, h5]
  · simp only [login]
    rw [if_pos h6]
  · have h1 : 1 ≤ t5 + 600000 - t6 := by omega
    unfold ceilDiv
    exact Nat.div_pos (by omega) (by norm_num)

/-- Witness for C3 at a concrete account and concrete attempt times. -/
theorem sixth_attempt_locked_without_password_check_witness :
    1 < 0 + 600000 ∧
    (failTimes [0, 0, 0, 0, 0] (some ⟨7, "h", true, 0, none, none, none, none, none⟩) "w" =
      some ⟨7, "h", true, 5, some (0 + 600000), none, none, none, none⟩ ∧
    login (fun _ _ => true) (some ⟨7, "h", true, 5, some (0 + 600000), none, none, none, none⟩)
        "p" 1 =
      (lockedResp (0 + 600000) 1,
       some ⟨7, "h", true, 5, some (0 + 600000), none, none, none, none⟩) ∧
    0 < ceilDiv (0 + 600000 - 1) 1000) :=
  ⟨by decide,
   sixth_attempt_locked_without_password_check 7 "h" none none none none "w" "p"
     0 0 0 0 0 1 (by decide) (fun _ _ => true)⟩

/-- C5: when the stored lock has expired (`lockUntil < now`), the next login
attempt is not answered with the locked response; a failed attempt restarts
the counter at 1 and clears the lock, and a successful attempt resets the
counter to 0, clears the lock and stamps `lastLogin`. -/
theorem expired_lock_treated_as_open
    (i a l : Nat) (ph : String) (pca : Option Nat) (rt : Option String)
    (re ll : Option Nat) (pw : String) (now : Nat)
    (cmp : String → String → Bool) (hl : l < now) :
    ((login cmp (some ⟨i, ph, true, a, some l, pca, rt, re, ll⟩) pw now).1.code
        ≠ some "ACCOUNT_LOCKED" ∧
     (login cmp (some ⟨i, ph, true, a, some l, pca, rt, re, ll⟩) pw now).1.status ≠ 423) ∧
    (cmp pw ph = false →
      (login cmp (some ⟨i, ph, true, a, some l, pca, rt, re, ll⟩) pw now).2 =
        some ⟨i, ph, true, 1, none, pca, rt, re, ll⟩) ∧
    (cmp pw ph = true →
      (login cmp (some ⟨i, ph, true, a, some l, pca, rt, re, ll⟩) pw now).2 =
        some ⟨i, ph, true, 0, none, pca, rt, re, some now⟩) := by
  have hnl : ¬ now < l := by omega
  have hbody : login cmp (some ⟨i, ph, true, a, some l, pca, rt, re, ll⟩) pw now =
      loginBody cmp ⟨i, ph, true, a, some l, pca, rt, re, ll⟩ pw now := by
    simp only [login]
    rw [if_neg hnl]
  have hinc : incLoginAttempts ⟨i, ph, true, a, some l, pca, rt, re, ll⟩ now =
      ⟨i, ph, true, 1, none, pca, rt, re, ll⟩ := by
    simp only [incLoginAttempts]
    rw [if_pos hl]
  rcases hc : cmp pw ph with _ | _
  · have hfail : loginBody cmp ⟨i, ph, true, a, some l, pca, rt, re, ll⟩ pw now =
        (failResp 1, some ⟨i, ph, true, 1, none, pca, rt, re, ll⟩) := by
      simp [loginBody, hc, hinc]
    refine ⟨?_, ?_, ?_⟩
    · rw [hbody, hfail]
      exact ⟨(by decide : (failResp 1).code ≠ some "ACCOUNT_LOCKED"),
             (by decide : (failResp 1).status ≠ 423)⟩
    · intro _
      rw [hbody, hfail]
    · intro h
      simp [hc] at h
  · have hsucc : loginBody cmp ⟨i, ph, true, a, some l, pca, rt, re, ll⟩ pw now =
        (successResp ⟨i, ph, true, 0, none, pca, rt, re, some now⟩ now,
         some ⟨i, ph, true, 0, none, pca, rt, re, some now⟩) := by
      simp [loginBody, hc, resetLoginAttempts]
    refine ⟨?_, ?_, ?_⟩
    · rw [hbody, hsucc]
      exact ⟨(by decide : (none : Option String) ≠ some "ACCOUNT_LOCKED"),
             (by decide : (200 : Nat) ≠ 423)⟩
    · intro h
      simp [hc] at h
    · intro _
      rw [hbody, hsucc]

/-- Witness for C5 at a concrete expired-locked account. -/
theorem expired_lock_treated_as_open_witness :
    10 < 50 ∧
    (((login (fun _ _ => false)
        (some ⟨3, "h", true, 5, some 10, none, none, none, none⟩) "w" 50).1.code
        ≠ some "ACCOUNT_LOCKED" ∧
      (login (fun _ _ => false)
        (some ⟨3, "h", true, 5, some 10, none, none, none, none⟩) "w" 50).1.status ≠ 423) ∧
     ((fun _ _ => false : String → String → Bool) "w" "h" = false →
       (login (fun _ _ => false)
         (some ⟨3, "h", true, 5, some 10, none, none, none, none⟩) "w" 50).2 =
         some ⟨3, "h", true, 1, none, none, none, none, none⟩) ∧
     ((fun _ _ => false : String → String → Bool) "w" "h" = true →
       (login (fun _ _ => false)
         (some ⟨3, "h", true, 5, some 10, none, none, none, none⟩) "w" 50).2 =
         some ⟨3, "h", true, 0, none, none, none, none, some 50⟩)) :=
  ⟨by decide,
   expired_lock_treated_as_open 3 5 10 "h" none none none none "w" 50
     (fun _ _ => false) (by decide)⟩

/-- C10: while the lock expiry is still in the future, `login` answers the
HTTP 423 locked response and returns the account record unchanged (no field
is written, since the handler returns before any mutation), for every
comparison oracle and candidate password; and `incLoginAttempts` itself,
invoked at such a moment, increments only the counter and never moves an
unexpired `lockUntil`. -/
theorem locked_attempt_leaves_account_unchanged
    (i a l : Nat) (act : Bool) (ph : String) (pca : Option Nat) (rt : Option String)
    (re ll : Option Nat) (now : Nat) (hfut : now < l) :
    (∀ cmp pw, login cmp (some ⟨i, ph, act, a, some l, pca, rt, re, ll⟩) pw now =
      (lockedResp l now, some ⟨i, ph, act, a, some l, pca, rt, re, ll⟩)) ∧
    (incLoginAttempts ⟨i, ph, act, a, some l, pca, rt, re, ll⟩ now).lockUntil = some l ∧
    (incLoginAttempts ⟨i, ph, act, a, some l, pca, rt, re, ll⟩ now).loginAttempts = a + 1 := by
  have hne : ¬ l < now := by omega
  have hinc : incLoginAttempts ⟨i, ph, act, a, some l, pca, rt, re, ll⟩ now =
      ⟨i, ph, act, a + 1, some l, pca, rt, re, ll⟩ := by
    simp only [incLoginAttempts]
    rw [if_neg hne]
    simp [incStep, isLocked, hfut, maxAttempts]
  refine ⟨fun cmp pw => ?_, ?_, ?_⟩
  · simp only [login]
    rw [if_pos hfut]
  · rw [hinc]
  · rw [hinc]

/-- C1: counter-evidence. An active account that has never been issued a
recovery code (`resetPasswordToken` and `resetPasswordExpire` both empty) has
its password reset with HTTP 200 for an arbitrary 6-digit code, because the
controller never reads the code; and a missing account yields a 404
"User not found", an error outcome outside the claimed
InvalidOrExpiredCode/WeakPassword set. -/
theorem resetPassword_succeeds_without_valid_code :
    (resetPassword (fun s => s) "alice@x.com" "123456" "newpass1"
        (some ⟨1, "oldhash", true, 0, none, none, none, none, none⟩) 5000).1 =
      { status := 200, success := true
        message := "Password reset successfully. You can now login with your new password." } ∧
    (resetPassword (fun s => s) "alice@x.com" "123456" "newpass1"
        (some ⟨1, "oldhash", true, 0, none, none, none, none, none⟩) 5000).2 =
      some ⟨1, "newpass1", true, 0, none, some 4000, none, none, none⟩ ∧
    (resetPassword (fun s => s) "alice@x.com" "123456" "newpass1" none 5000).1 =
      { status := 404, success := false, message := "User not found" } ∧
    (resetPassword (fun s => s) "alice@x.com" "123456" "abc"
        (some ⟨1, "oldhash", true, 0, none, none, none, none, none⟩) 5000).1 =
      { status := 400, success := false
        message := "Password must be at least 6 characters" } := by
  decide

/-- C2: counter-evidence. Running forgot-password for an email with no
account and for an existing active account (with successful delivery) both
return HTTP 200 with success, but the bodies differ — 'If an account with
that email exists, an OTP has been sent.' versus 'OTP sent to your email
successfully' — so the success response reveals whether the account exists,
contradicting the identical-response claim and the code's own
anti-enumeration comment. -/
theorem forgotPassword_success_responses_differ :
    (forgotPassword (fun s => s) none "123456" true 5000).1 = genericOtpResp ∧
    (forgotPassword (fun s => s)
        (some ⟨1, "h", true, 0, none, none, none, none, none⟩) "123456" true 5000).1 =
      otpSentResp ∧
    genericOtpResp.status = 200 ∧ otpSentResp.status = 200 ∧
    genericOtpResp.success = true ∧ otpSentResp.success = true ∧
    genericOtpResp.message ≠ otpSentResp.message := by
  decide

/-- C6: counter-evidence for the resetPassword half, confirmation for the
verifyOTP half. After a code is issued and then consumed by a successful
password reset (which clears the stored hash and expiry), replaying the same
code to verifyOTP is rejected with Invalid or expired OTP — but replaying it
to resetPassword succeeds again with HTTP 200, because resetPassword never
checks the code. -/
theorem replayed_code_after_consumption :
    (forgotPassword (fun s => s)
        (some ⟨1, "oldhash", true, 0, none, none, none, none, none⟩) "123456" true 1000).2 =
      some ⟨1, "oldhash", true, 0, none, none, some "123456", some 601000, none⟩ ∧
    verifyOTP (fun s => s)
        (some ⟨1, "oldhash", true, 0, none, none, some "123456", some 601000, none⟩)
        "123456" 2000 =
      { status := 200, success := true, message := "OTP verified successfully" } ∧
    (resetPassword (fun s => s) "alice@x.com" "123456" "newpass1"
        (some ⟨1, "oldhash", true, 0, none, none, some "123456", some 601000, none⟩) 2000).2 =
      some ⟨1, "newpass1", true, 0, none, some 1000, none, none, none⟩ ∧
    verifyOTP (fun s => s)
        (some ⟨1, "newpass1", true, 0, none, some 1000, none, none, none⟩) "123456" 2500 =
      invalidOtpResp ∧
    (resetPassword (fun s => s) "alice@x.com" "123456" "newpass2"
        (some ⟨1, "newpass1", true, 0, none, some 1000, none, none, none⟩) 3000).1 =
      { status := 200, success := true
        message := "Password reset successfully. You can now login with your new password." } := by
  decide

/-- C7: counter-evidence. A login naming a nonexistent account answers 401
with message 'invalid credentials' and no attemptsLeft field, while a login
for an existing account with a wrong password answers 401 with message
'Invalid credentials. 4 attempts remaining.' and attemptsLeft = 4: the two
error responses are distinguishable. -/
theorem login_distinguishes_missing_user_from_wrong_password :
    (login (fun _ _ => false) none "pw" 1000).1 = invalidCredResp ∧
    (login (fun _ _ => false)
        (some ⟨1, "h", true, 0, none, none, none, none, none⟩) "pw" 1000).1 =
      { status := 401, success := false
        message := "Invalid credentials. 4 attempts remaining."
        attemptsLeft := some 4 } ∧
    invalidCredResp.message ≠ "Invalid credentials. 4 attempts remaining." ∧
    invalidCredResp.attemptsLeft = none ∧
    (login (fun _ _ => false) none "pw" 1000).1 ≠
      (login (fun _ _ => false)
        (some ⟨1, "h", true, 0, none, none, none, none, none⟩) "pw" 1000).1 := by
  decide

/-- C7 amended: what actually holds. Both the missing-account response and
the wrong-password response (for an active, unlocked account below the lock
threshold) carry HTTP status 401 and success = false, but they differ: the
missing-account body has no attemptsLeft field while the wrong-password body
reports the remaining attempts, so login responses do distinguish "user not
found" from "wrong password". -/
theorem login_enumeration_amended
    (i a : Nat) (ph : String) (pca : Option Nat) (rt : Option String)
    (re ll : Option Nat) (pw pw2 : String) (now : Nat)
    (cmp : String → String → Bool) (ha : a + 1 < 5) (hcmp : cmp pw ph = false) :
    (login cmp none pw2 now).1.status = 401 ∧
    (login cmp none pw2 now).1.success = false ∧
    (login cmp none pw2 now).1.attemptsLeft = none ∧
    (login cmp (some ⟨i, ph, true, a, none, pca, rt, re, ll⟩) pw now).1.status = 401 ∧
    (login cmp (some ⟨i, ph, true, a, none, pca, rt, re, ll⟩) pw now).1.success = false ∧
    (login cmp (some ⟨i, ph, true, a, none, pca, rt, re, ll⟩) pw now).1.attemptsLeft =
      some (5 - (a + 1)) ∧
    (login cmp none pw2 now).1 ≠
      (login cmp (some ⟨i, ph, true, a, none, pca, rt, re, ll⟩) pw now).1 := by
  have hna : ¬ (maxAttempts ≤ a + 1 ∧ isLocked ⟨i, ph, true, a, none, pca, rt, re, ll⟩ now = false) := by
    simp [maxAttempts, isLocked]
    omega
  have hinc : incLoginAttempts ⟨i, ph, true, a, none, pca, rt, re, ll⟩ now =
      ⟨i, ph, true, a + 1, none, pca, rt, re, ll⟩ := by
    simp only [incLoginAttempts, incStep]
    rw [if_neg hna]
  have hleft : 0 < maxAttempts - (a + 1) := by
    simp only [maxAttempts]
    omega
  have h2 : (login cmp (some ⟨i, ph, true, a, none, pca, rt, re, ll⟩) pw now).1 =
      { status := 401, success := false
        message := "Invalid credentials. " ++ toString (maxAttempts - (a + 1)) ++ " attempt"
          ++ (if 1 < maxAttempts - (a + 1) then "s" else "") ++ " remaining."
        attemptsLeft := some (maxAttempts - (a + 1)) } := by
    simp [login, loginBody, hcmp, hinc, failResp, hleft]
  refine ⟨rfl, rfl, rfl, ?_, ?_, ?_, ?_⟩
  · rw [h2]
  · rw [h2]
  · rw [h2]
    simp [maxAttempts]
  · rw [h2]
    intro h
    have := congrArg Resp.attemptsLeft h
    simp [invalidCredResp, login] at this

/-- Witness for the amended C7 at a concrete account. -/
theorem login_enumeration_amended_witness :
    (0 + 1 < 5 ∧ (fun _ _ => false : String → String → Bool) "pw" "h" = false) ∧
    ((login (fun _ _ => false) none "pw" 1000).1.status = 401 ∧
     (login (fun _ _ => false) none "pw" 1000).1.success = false ∧
     (login (fun _ _ => false) none "pw" 1000).1.attemptsLeft = none ∧
     (login (fun _ _ => false)
        (some ⟨1, "h", true, 0, none, none, none, none, none⟩) "pw" 1000).1.status = 401 ∧
     (login (fun _ _ => false)
        (some ⟨1, "h", true, 0, none, none, none, none, none⟩) "pw" 1000).1.success = false ∧
     (login (fun _ _ => false)
        (some ⟨1, "h", true, 0, none, none, none, none, none⟩) "pw" 1000).1.attemptsLeft =
       some (5 - (0 + 1)) ∧
     (login (fun _ _ => false) none "pw" 1000).1 ≠
       (login (fun _ _ => false)
         (some ⟨1, "h", true, 0, none, none, none, none, none⟩) "pw" 1000).1) :=
  ⟨⟨by decide, by decide⟩,
   login_enumeration_amended 1 0 "h" none none none none "pw" "pw" 1000
     (fun _ _ => false) (by decide) (by decide)⟩

/-- Witness for C10 at a concrete locked account. -/
theorem locked_attempt_leaves_account_unchanged_witness :
    20 < 600000 ∧
    (login (fun _ _ => true) (some ⟨3, "h", true, 5, some 600000, none, none, none, none⟩)
        "right" 20 =
      (lockedResp 600000 20, some ⟨3, "h", true, 5, some 600000, none, none, none, none⟩)) ∧
    (incLoginAttempts ⟨3, "h", true, 5, some 600000, none, none, none, none⟩ 20).lockUntil
      = some 600000 :=
  ⟨by decide,
   (locked_attempt_leaves_account_unchanged 3 5 600000 true "h" none none none none 20
      (by decide)).1 (fun _ _ => true) "right",
   (locked_attempt_leaves_account_unchanged 3 5 600000 true "h" none none none none 20
      (by decide)).2.1⟩

/-- C4: counter-evidence. A reset at time 10000123 ms stores
`passwordChangedAt = 9999123` (the save-hook subtracts 1 s). A token with
`iat = 9999` s — i.e. recorded issuance instant 9999000 ms, which precedes
both the stored password-change timestamp 9999123 ms and the reset itself —
is still accepted by `protect` afterwards, because the middleware compares
`iat < floor(9999123 / 1000) = 9999` in truncated seconds. So not every
previously issued token is invalidated. -/
theorem reset_leaves_just_issued_token_valid :
    (resetPassword (fun s => s) "alice@x.com" "123456" "newpass1"
        (some ⟨1, "oldhash", true, 0, none, none, some "stored", some 99999999, none⟩)
        10000123).2 =
      some ⟨1, "newpass1", true, 0, none, some 9999123, none, none, none⟩ ∧
    9999 * 1000 < 9999123 ∧
    protect
      (fun k => if k = 1 then
          some ⟨1, "newpass1", true, 0, none, some 9999123, none, none, none⟩
        else none)
      true ⟨1, 9999, 614799⟩ 10000 =
      .ok ⟨1, "newpass1", true, 0, none, some 9999123, none, none, none⟩ := by
  decide

/-- C4 amended: what actually holds. Verification rejects a token whenever
its iat (whole seconds) is strictly below the seconds-truncation of the
account's passwordChangedAt (milliseconds), even while the token expiry is
still in the future; and a successful resetPassword stores
passwordChangedAt = now − 1000 ms (the save-hook's one-second grace), so
tokens issued before second floor((now − 1000)/1000) are invalidated, while
a token issued within that final second survives. -/
theorem token_rejected_iat_before_truncated_pca
    (db : Nat → Option Account) (u : Account) (tok : Token) (nowSec pca : Nat)
    (hdb : db tok.sub = some u) (hact : u.isActive = true)
    (hpca : u.passwordChangedAt = some pca) (hexp : nowSec < tok.exp)
    (hiat : tok.iat < pca / 1000)
    (bhash : String → String) (email otp npw : String)
    (i a : Nat) (ph : String) (act : Bool) (lk : Option Nat) (pca0 : Option Nat)
    (rt : Option String) (re ll : Option Nat) (now : Nat)
    (hem : ¬ email = "") (hnp : ¬ npw = "") (hlen : ¬ npw.length < 6) :
    protect db true tok nowSec =
      .err 401 "Password was recently changed. Please login again." "PASSWORD_CHANGED" ∧
    (resetPassword bhash email otp npw
        (some ⟨i, ph, act, a, lk, pca0, rt, re, ll⟩) now).2 =
      some ⟨i, bhash npw, act, a, lk, some (now - 1000), none, none, ll⟩ := by
  constructor
  · have hne : ¬ tok.exp ≤ nowSec := by omega
    simp [protect, hne, hdb, hact, hpca, hiat]
  · have hor : ¬ (email = "" ∨ npw = "") := by
      intro h
      rcases h with h | h
      · exact hem h
      · exact hnp h
    simp [resetPassword, hor, hlen]

/-- Witness for the amended C4 at concrete values. -/
theorem token_rejected_iat_before_truncated_pca_witness :
    ((fun k => if k = 1 then
        some (⟨1, "h", true, 0, none, some 9999123, none, none, none⟩ : Account)
      else none) 1 =
        some ⟨1, "h", true, 0, none, some 9999123, none, none, none⟩ ∧
     10000 < 614799 ∧ 9998 < 9999123 / 1000) ∧
    (protect
        (fun k => if k = 1 then
          some ⟨1, "h", true, 0, none, some 9999123, none, none, none⟩
        else none)
        true ⟨1, 9998, 614799⟩ 10000 =
      .err 401 "Password was recently changed. Please login again." "PASSWORD_CHANGED" ∧
     (resetPassword (fun s => s) "alice@x.com" "123456" "newpass1"
        (some ⟨1, "h", true, 0, none, none, none, none, none⟩) 10000123).2 =
      some ⟨1, "newpass1", true, 0, none, some (10000123 - 1000), none, none, none⟩) :=
  ⟨⟨by decide, by decide, by decide⟩,
   token_rejected_iat_before_truncated_pca
     (fun k => if k = 1 then
        some ⟨1, "h", true, 0, none, some 9999123, none, none, none⟩
      else none)
     ⟨1, "h", true, 0, none, some 9999123, none, none, none⟩
     ⟨1, 9998, 614799⟩ 10000 9999123 rfl rfl rfl (by decide) (by decide)
     (fun s => s) "alice@x.com" "123456" "newpass1"
     1 0 "h" true none none none none none 10000123
     (by decide) (by decide) (by decide)⟩

/-- C8: a forgot-password request for an existing active account whose OTP
email fails to send clears the freshly stored reset-code hash and expiry
back to empty and answers HTTP 500 'Email could not be sent. Please try
again later.' — a response distinct from the HTTP 200 anti-enumeration
response given when the account does not exist. -/
theorem delivery_failure_rolls_back_code
    (sha : String → String) (i a : Nat) (ph : String) (lk : Option Nat)
    (pca : Option Nat) (rt : Option String) (re ll : Option Nat)
    (otp : String) (now : Nat) :
    (forgotPassword sha (some ⟨i, ph, true, a, lk, pca, rt, re, ll⟩) otp false now).1 =
      emailFailResp ∧
    (forgotPassword sha (some ⟨i, ph, true, a, lk, pca, rt, re, ll⟩) otp false now).2 =
      some ⟨i, ph, true, a, lk, pca, none, none, ll⟩ ∧
    (forgotPassword sha none otp false now).1 = genericOtpResp ∧
    emailFailResp ≠ genericOtpResp ∧
    emailFailResp.status = 500 ∧ genericOtpResp.status = 200 := by
  refine ⟨?_, ?_, rfl, by decide, rfl, rfl⟩
  · simp [forgotPassword]
  · simp [forgotPassword]

/-- Witness for C8 at a concrete account that already held an older code. -/
theorem delivery_failure_rolls_back_code_witness :
    (forgotPassword (fun s => s)
        (some ⟨9, "h", true, 2, none, none, some "old", some 42, none⟩)
        "123456" false 7000).1 = emailFailResp ∧
    (forgotPassword (fun s => s)
        (some ⟨9, "h", true, 2, none, none, some "old", some 42, none⟩)
        "123456" false 7000).2 =
      some ⟨9, "h", true, 2, none, none, none, none, none⟩ ∧
    (forgotPassword (fun s => s) none "123456" false 7000).1 = genericOtpResp ∧
    emailFailResp ≠ genericOtpResp ∧
    emailFailResp.status = 500 ∧ genericOtpResp.status = 200 :=
  delivery_failure_rolls_back_code (fun s => s) 9 2 "h" none none (some "old")
    (some 42) none "123456" 7000

/-- C9: for a request whose verified token has remaining lifetime strictly
between 0 and the 172800 s (2-day) refresh threshold, the middleware chain
accepts the request and mints a replacement token for the same subject with
iat = now and a fresh 7-day expiry, delivered via the X-New-Token header;
the refresh writes no state, and the old token itself still verifies at any
later instant before its own expiry. -/
theorem near_expiry_refresh
    (db : Nat → Option Account) (u : Account) (t : Token) (nowSec : Nat)
    (hdb : db t.sub = some u) (hid : u.id = t.sub) (hact : u.isActive = true)
    (hpca : ∀ pca, u.passwordChangedAt = some pca → ¬ t.iat < pca / 1000)
    (hexp : nowSec < t.exp) (hthr : t.exp - nowSec < 172800) :
    protect db true t nowSec = .ok u ∧
    refreshIfNeeded true (some t) (some u) nowSec = some ⟨u.id, nowSec, nowSec + 604800⟩ ∧
    (⟨u.id, nowSec, nowSec + 604800⟩ : Token).sub = t.sub ∧
    (∀ sec2, sec2 < t.exp → protect db true t sec2 = .ok u) := by
  have hok : ∀ sec2, sec2 < t.exp → protect db true t sec2 = .ok u := by
    intro sec2 hs
    have hne : ¬ t.exp ≤ sec2 := by omega
    rcases hp : u.passwordChangedAt with _ | pca
    · simp [protect, hne, hdb, hact, hp]
    · simp [protect, hne, hdb, hact, hp, hpca pca hp]
  refine ⟨hok nowSec hexp, ?_, hid, hok⟩
  have hne : ¬ t.exp ≤ nowSec := by omega
  have hpos : 0 < t.exp - nowSec := by omega
  simp [refreshIfNeeded, hne, hthr, hpos]

/-- Witness for C9: token expiring in 100 s, well under the 2-day threshold;
the refreshed token carries the same subject, and the old token still
verifies one second before its expiry. -/
theorem near_expiry_refresh_witness :
    protect (fun k => if k = 2 then
        some (⟨2, "h", true, 0, none, none, none, none, none⟩ : Account)
      else none) true ⟨2, 100, 1000⟩ 900 =
      .ok ⟨2, "h", true, 0, none, none, none, none, none⟩ ∧
    refreshIfNeeded true (some ⟨2, 100, 1000⟩)
        (some ⟨2, "h", true, 0, none, none, none, none, none⟩) 900 =
      some ⟨2, 900, 605700⟩ ∧
    protect (fun k => if k = 2 then
        some (⟨2, "h", true, 0, none, none, none, none, none⟩ : Account)
      else none) true ⟨2, 100, 1000⟩ 999 =
      .ok ⟨2, "h", true, 0, none, none, none, none, none⟩ :=
  ⟨(near_expiry_refresh
      (fun k => if k = 2 then
        some ⟨2, "h", true, 0, none, none, none, none, none⟩
      else none)
      ⟨2, "h", true, 0, none, none, none, none, none⟩ ⟨2, 100, 1000⟩ 900
      rfl rfl rfl (fun _ h => by simp at h) (by decide) (by decide)).1,
   (near_expiry_refresh
      (fun k => if k = 2 then
        some ⟨2, "h", true, 0, none, none, none, none, none⟩
      else none)
      ⟨2, "h", true, 0, none, none, none, none, none⟩ ⟨2, 100, 1000⟩ 900
      rfl rfl rfl (fun _ h => by simp at h) (by decide) (by decide)).2.1,
   (near_expiry_refresh
      (fun k => if k = 2 then
        some ⟨2, "h", true, 0, none, none, none, none, none⟩
      else none)
      ⟨2, "h", true, 0, none, none, none, none, none⟩ ⟨2, 100, 1000⟩ 900
      rfl rfl rfl (fun _ h => by simp at h) (by decide) (by decide)).2.2.2
     999 (by decide)⟩

end WorkoutTracker
